import Mathlib

/-!
Verification of the `pdf_ballooner` annotation/coordinate-transform core.

The Python source is shallowly embedded: coordinates (Python floats) are
modelled as rationals `ℚ`, points as pairs `ℚ × ℚ`, the balloon registry
(a Python dict keyed by uid) as a function `String → Option BalloonData`.
Where the code computes a square root (`math.hypot`), the embedding takes
the computed length as an extra argument certified by a hypothesis
`d ^ 2 = dx ^ 2 + dy ^ 2`, keeping every definition computable.
-/

namespace PdfBallooner

/-- A point, as Qt's `QPointF` / PyMuPDF's `fitz.Point` (floats modelled as ℚ). -/
abbrev Point := ℚ × ℚ

/-! ### `app/exporter.py`, `_transform_coords`

Maps balloon coordinates from the viewer's rotated space to original page
space; `w` and `h` are the original (unrotated) page width and height. -/

def transform_coords (bx by' : ℚ) (rotation : ℤ) (w h : ℚ) : ℚ × ℚ :=
  if rotation = 90 then (w - by', bx)
  else if rotation = 180 then (w - bx, h - by')
  else if rotation = 270 then (by', h - bx)
  else (bx, by')

/-! ### `app/exporter.py`, `export_pdf` leader-edge computation

```python
dx = tx - cx
dy = ty - cy
dist = math.hypot(dx, dy)
edge = fitz.Point(cx + dx / dist * r, cy + dy / dist * r) if dist > 0 \
       else fitz.Point(cx, cy - r)
```

`math.hypot(dx, dy)` is a square root; the embedding takes its value `dist`
as an argument, certified by the hypothesis `dist ^ 2 = dx ^ 2 + dy ^ 2`
(with `dist ≥ 0`) in the theorems. -/

def leader_edge (center target : Point) (r dist : ℚ) : Point :=
  if 0 < dist then
    (center.1 + (target.1 - center.1) / dist * r,
     center.2 + (target.2 - center.2) / dist * r)
  else (center.1, center.2 - r)

/-! ### Style resolution, `app/balloon.py` `BalloonItem.paint`
and `app/exporter.py` `export_pdf`

Colors as RGB triples in [0,1]; Qt named colors: "red" = (1,0,0),
"black" = (0,0,0), "white" = (1,1,1). `circle_fill = none` means the
circle is not filled (transparent / `NoBrush`). -/

structure StyleResolution where
  draw_leader : Bool
  circle_fill : Option (ℚ × ℚ × ℚ)
  circle_stroke : ℚ × ℚ × ℚ
  text_color : ℚ × ℚ × ℚ
  leader_color : ℚ × ℚ × ℚ
deriving DecidableEq, Repr

/-- What `BalloonItem.paint` resolves from `style` (interactive display). -/
def display_style (style : String) : StyleResolution :=
  if style = "red" then
    ⟨true, some (1, 0, 0), (0, 0, 0), (1, 1, 1), (1, 0, 0)⟩
  else if style = "outline" then
    ⟨true, none, (0, 0, 0), (0, 0, 0), (1, 0, 0)⟩
  else if style = "no_arrow" then
    ⟨false, none, (1, 0, 0), (1, 0, 0), (1, 0, 0)⟩
  else  -- "default"
    ⟨true, none, (0, 0, 0), (0, 0, 0), (1, 0, 0)⟩

/-- What `export_pdf` resolves from `style` (static export). -/
def export_style (style : String) : StyleResolution :=
  if style = "red" then
    ⟨true, some (1, 0, 0), (0, 0, 0), (1, 1, 1), (4/5, 0, 0)⟩
  else if style = "outline" then
    ⟨true, none, (0, 0, 0), (0, 0, 0), (4/5, 0, 0)⟩
  else if style = "no_arrow" then
    ⟨false, some (1, 1, 1), (4/5, 0, 0), (4/5, 0, 0), (4/5, 0, 0)⟩
  else  -- "default"
    ⟨true, some (1, 1, 1), (0, 0, 0), (0, 0, 0), (4/5, 0, 0)⟩

/-! ### `app/utils.py`, `pdf_to_scene` / `scene_to_pdf` -/

def pdf_to_scene (pdf_pt : Point) (page_height : ℚ) : Point :=
  (pdf_pt.1, page_height - pdf_pt.2)

def scene_to_pdf (scene_pt : Point) (page_height : ℚ) : Point :=
  (scene_pt.1, page_height - scene_pt.2)

/-! ### `app/balloon.py`, `BalloonData` -/

structure BalloonData where
  number : ℕ
  page : ℕ
  target_point : Point
  balloon_center : Point
  description : String := ""
  diameter : ℚ := 36
  style : String := "default"
  font_size_override : ℚ := 0
  uid : String
deriving DecidableEq, Repr

/-! ### `app/main_window.py`, the balloon registry and undo commands

`MainWindow._balloons` is a Python dict keyed by uid; observationally it is
the map `uid ↦ record`, embedded as `String → Option BalloonData`.
`_do_add_balloon` inserts, `_do_remove_balloon` pops (no-op when absent),
`_do_move_balloon` updates center/target when the uid is present and is a
no-op otherwise. -/

abbrev Registry := String → Option BalloonData

def emptyReg : Registry := fun _ => none

def reg_add (reg : Registry) (d : BalloonData) : Registry :=
  fun k => if k = d.uid then some d else reg k

def reg_remove (reg : Registry) (uid : String) : Registry :=
  fun k => if k = uid then none else reg k

def reg_move (reg : Registry) (uid : String) (c t : Point) : Registry :=
  fun k =>
    if k = uid then
      (reg k).map (fun d => { d with balloon_center := c, target_point := t })
    else reg k

/-- The three undo-stack commands of `app/main_window.py`:
`PlaceBalloonCommand`, `DeleteBalloonCommand`, `MoveBalloonCommand`. -/
inductive Command where
  | place (data : BalloonData)
  | delete (data : BalloonData)
  | move (uid : String) (old_center new_center old_target new_target : Point)

/-- The `redo()` of each command (Qt calls `redo` both for the initial
apply and for re-apply). -/
def Command.redo : Command → Registry → Registry
  | .place d, reg => reg_add reg d
  | .delete d, reg => reg_remove reg d.uid
  | .move uid _ newC _ newT, reg => reg_move reg uid newC newT

/-- The `undo()` of each command. -/
def Command.undo : Command → Registry → Registry
  | .place d, reg => reg_remove reg d.uid
  | .delete d, reg => reg_add reg d
  | .move uid oldC _ oldT _, reg => reg_move reg uid oldC oldT

/-- A concrete balloon record used in the undo/redo scenario. -/
def b0 : BalloonData :=
  { number := 1, page := 0, target_point := (10, 20),
    balloon_center := (50, 60), uid := "uid-1" }

/-! ### `app/main_window.py`, `_next_free_number`

```python
used = {b.number for b in self._balloons.values()}
n = 1
while n in used:
    n += 1
return n
```

The unbounded `while` terminates because `used` is finite; the embedding
runs it with fuel `used.length + 1`, which is proved sufficient
(`next_free_go` never needs to step past `used.length + 1`). -/

def next_free_go (used : List ℕ) : ℕ → ℕ → ℕ
  | 0, n => n
  | fuel + 1, n => if n ∈ used then next_free_go used fuel (n + 1) else n

def next_free_number (used : List ℕ) : ℕ :=
  next_free_go used (used.length + 1) 1

/-! ### `app/main_window.py`, `_renumber_balloons`

```python
sorted_bs = sorted(self._balloons.values(),
                   key=lambda b: (b.page, -b.balloon_center.y(), b.balloon_center.x()))
for i, b in enumerate(sorted_bs, 1):
    b.number = i
```

`balloon_le` is the total preorder induced by the Python sort key
`(page, -center.y, center.x)` under lexicographic tuple comparison
(written without the negation: descending in `center.y`). Python's
`sorted` is a stable sort; `List.insertionSort` is stable as well. -/

def balloon_le (a b : BalloonData) : Prop :=
  a.page < b.page ∨ (a.page = b.page ∧
    (b.balloon_center.2 < a.balloon_center.2 ∨
      (a.balloon_center.2 = b.balloon_center.2 ∧
        a.balloon_center.1 ≤ b.balloon_center.1)))

instance : DecidableRel balloon_le := fun a b => by
  unfold balloon_le
  infer_instance

instance : IsTotal BalloonData balloon_le where
  total a b := by
    unfold balloon_le
    rcases Nat.lt_trichotomy a.page b.page with h | h | h
    · exact Or.inl (Or.inl h)
    · rcases lt_trichotomy b.balloon_center.2 a.balloon_center.2 with h2 | h2 | h2
      · exact Or.inl (Or.inr ⟨h, Or.inl h2⟩)
      · rcases le_total a.balloon_center.1 b.balloon_center.1 with h3 | h3
        · exact Or.inl (Or.inr ⟨h, Or.inr ⟨h2.symm, h3⟩⟩)
        · exact Or.inr (Or.inr ⟨h.symm, Or.inr ⟨h2, h3⟩⟩)
      · exact Or.inr (Or.inr ⟨h.symm, Or.inl h2⟩)
    · exact Or.inr (Or.inl h)

instance : IsTrans BalloonData balloon_le where
  trans a b c hab hbc := by
    unfold balloon_le at *
    rcases hab with h1 | ⟨e1, h1⟩ <;> rcases hbc with h2 | ⟨e2, h2⟩
    · exact Or.inl (h1.trans h2)
    · exact Or.inl (by rw [← e2]; exact h1)
    · exact Or.inl (by rw [e1]; exact h2)
    · refine Or.inr ⟨e1.trans e2, ?_⟩
      rcases h1 with h1 | ⟨f1, h1⟩ <;> rcases h2 with h2 | ⟨f2, h2⟩
      · exact Or.inl (h2.trans h1)
      · exact Or.inl (by rw [← f2]; exact h1)
      · exact Or.inl (by rw [f1]; exact h2)
      · exact Or.inr ⟨f1.trans f2, h1.trans h2⟩

def renumber_balloons (bs : List BalloonData) : List BalloonData :=
  (List.insertionSort balloon_le bs).enum.map
    (fun p => { p.2 with number := p.1 + 1 })

/-- The three records of the renumber scenario: page 0, document
Y = 100 (x = 10, number 7), Y = 50 (x = 5, number 2), Y = 50 (x = 20,
number 9). -/
def bY100 : BalloonData :=
  { number := 7, page := 0, target_point := (0, 0),
    balloon_center := (10, 100), uid := "uA" }

def bY50x5 : BalloonData :=
  { number := 2, page := 0, target_point := (0, 0),
    balloon_center := (5, 50), uid := "uB" }

def bY50x20 : BalloonData :=
  { number := 9, page := 0, target_point := (0, 0),
    balloon_center := (20, 50), uid := "uC" }

/-! ### `app/balloon.py`, `BalloonData.to_dict` / `BalloonData.from_dict`

The session-record dict is embedded as a structure: keys read with
`d[...]` (required: number, page, target_point, balloon_center, uid) are
plain fields; keys read with `d.get(key, default)` are `Option` fields
(`none` = key absent from the JSON record). -/

structure BalloonRecord where
  number : ℕ
  page : ℕ
  target_point : Point
  balloon_center : Point
  description : Option String
  diameter : Option ℚ
  style : Option String
  font_size_override : Option ℚ
  uid : String
deriving DecidableEq, Repr

def to_dict (b : BalloonData) : BalloonRecord :=
  { number := b.number, page := b.page,
    target_point := b.target_point, balloon_center := b.balloon_center,
    description := some b.description, diameter := some b.diameter,
    style := some b.style, font_size_override := some b.font_size_override,
    uid := b.uid }

def from_dict (d : BalloonRecord) : BalloonData :=
  { number := d.number, page := d.page,
    target_point := d.target_point, balloon_center := d.balloon_center,
    description := d.description.getD "",
    diameter := d.diameter.getD 36,
    style := d.style.getD "default",
    font_size_override := d.font_size_override.getD 0,
    uid := d.uid }

/-- The round-trip scenario record: style "no_arrow", font override 12,
diameter 36. -/
def bNoArrow : BalloonData :=
  { number := 5, page := 1, target_point := (7, 8),
    balloon_center := (7, 8), description := "hole",
    diameter := 36, style := "no_arrow", font_size_override := 12,
    uid := "uid-9" }

/-! ### `app/exporter.py`, `export_pdf` same-file guard

```python
if Path(src_path).resolve() == Path(dst_path).resolve():
    raise ValueError("Cannot overwrite the original PDF. Choose a different output path.")
doc = fitz.open(src_path)
...
doc.save(dst_path, garbage=4, deflate=True)
```

Path resolution is an opaque function `resolve`; the guard compares
resolved paths before any file is opened. The drawing work between open
and save (whose geometry is embedded above) is abstracted into the
file-touching actions the call performs: the error branch performs none,
so no output is produced and the source is untouched. -/

inductive FileAction where
  | openDoc (path : String)
  | saveDoc (path : String)
deriving DecidableEq, Repr

def export_pdf_actions (resolve : String → String)
    (src_path dst_path : String) : Except String (List FileAction) :=
  if resolve src_path = resolve dst_path then
    .error "Cannot overwrite the original PDF. Choose a different output path."
  else
    .ok [.openDoc src_path, .saveDoc dst_path]

end PdfBallooner

namespace PdfBallooner

/-- C2: the document↔canvas Y-flip is an involution. -/
theorem scene_pdf_involution (p : Point) (h : ℚ) :
    scene_to_pdf (pdf_to_scene p h) h = p := by
  simp [pdf_to_scene, scene_to_pdf]

/-- C3: the export rotation re-projection computes exactly the four case
formulas: rotation 0 yields `(x,y)`, 90 yields `(w-y, x)`, 180 yields
`(w-x, h-y)`, 270 yields `(y, h-x)`. -/
theorem transform_coords_cases (x y w h : ℚ) :
    transform_coords x y 0 w h = (x, y) ∧
    transform_coords x y 90 w h = (w - y, x) ∧
    transform_coords x y 180 w h = (w - x, h - y) ∧
    transform_coords x y 270 w h = (y, h - x) := by
  refine ⟨?_, ?_, ?_, ?_⟩ <;> simp [transform_coords]

/-- C1 counterexample: with a non-square page (w = 2, h = 1), applying the
re-projection for rotation 90 and then for rotation 270 with the *same*
`w` and `h` does not return the original point `(0, 0)`. -/
theorem transform_coords_not_inverse_same_dims :
    ¬ (let q := transform_coords 0 0 90 2 1;
       transform_coords q.1 q.2 270 2 1 = (0, 0)) := by
  simp [transform_coords]
  norm_num

/-- C1 amended: the re-projection for rotation `r` composed with the
re-projection for rotation `(360 - r) % 360` returns the original point,
provided the inverse transform is given the rotated page's dimensions:
`(w, h)` again for r ∈ {0, 180}, and `(h, w)` for r ∈ {90, 270}. -/
theorem transform_coords_inverse (x y w h : ℚ) (r : ℤ)
    (hr : r = 0 ∨ r = 90 ∨ r = 180 ∨ r = 270) :
    (let wh' : ℚ × ℚ := if r = 90 ∨ r = 270 then (h, w) else (w, h);
     let q := transform_coords x y r w h;
     transform_coords q.1 q.2 ((360 - r) % 360) wh'.1 wh'.2 = (x, y)) := by
  rcases hr with h0 | h90 | h180 | h270 <;>
    subst_vars <;> simp [transform_coords]

/-- Witness for `transform_coords_inverse` at `x = 3, y = 5, w = 2, h = 7, r = 90`. -/
theorem transform_coords_inverse_witness :
    ((90 : ℤ) = 0 ∨ (90 : ℤ) = 90 ∨ (90 : ℤ) = 180 ∨ (90 : ℤ) = 270) ∧
    (let wh' : ℚ × ℚ := if (90 : ℤ) = 90 ∨ (90 : ℤ) = 270 then ((7 : ℚ), (2 : ℚ)) else (2, 7);
     let q := transform_coords 3 5 90 2 7;
     transform_coords q.1 q.2 ((360 - 90) % 360) wh'.1 wh'.2 = (3, 5)) :=
  ⟨Or.inr (Or.inl rfl), transform_coords_inverse 3 5 2 7 90 (Or.inr (Or.inl rfl))⟩

/-- C4 counterexample: with center = target = (0,0) and radius 5, the code
computes the degenerate edge point `(0, -5)` (center minus `(0, r)` in the
Y-down drawing space), not `center + (0, r) = (0, 5)` as the claim states. -/
theorem leader_edge_degenerate_counterexample :
    leader_edge (0, 0) (0, 0) 5 0 = (0, -5) ∧
    leader_edge (0, 0) (0, 0) 5 0 ≠ ((0 : ℚ), (5 : ℚ)) := by
  constructor
  · simp [leader_edge]
  · simp [leader_edge]
    norm_num

/-- C4 amended: with `dist` certified as the length of `target - center`
(`dist ≥ 0` and `dist² = dx² + dy²`) and radius `r > 0`, the leader edge
point lies exactly `r` away from the center when `target ≠ center`, and
equals `center + (0, -r)` (directly above the center by the radius in the
Y-down drawing space) when `target = center`. -/
theorem leader_edge_spec (c t : Point) (r dist : ℚ) (_hr : 0 < r)
    (hd0 : 0 ≤ dist)
    (hd : dist ^ 2 = (t.1 - c.1) ^ 2 + (t.2 - c.2) ^ 2) :
    (t ≠ c →
      ((leader_edge c t r dist).1 - c.1) ^ 2 +
      ((leader_edge c t r dist).2 - c.2) ^ 2 = r ^ 2) ∧
    (t = c → leader_edge c t r dist = (c.1, c.2 - r)) := by
  constructor
  · intro hne
    have hdpos : 0 < dist := by
      rcases lt_or_eq_of_le hd0 with h | h
      · exact h
      · exfalso
        rw [← h] at hd
        have h1 : (t.1 - c.1) ^ 2 + (t.2 - c.2) ^ 2 = 0 := by
          rw [← hd]; ring
        have h2 : t.1 - c.1 = 0 ∧ t.2 - c.2 = 0 := by
          constructor <;> nlinarith [sq_nonneg (t.1 - c.1), sq_nonneg (t.2 - c.2)]
        exact hne (Prod.ext (by linarith [h2.1]) (by linarith [h2.2]))
    have hdne : dist ≠ 0 := ne_of_gt hdpos
    simp only [leader_edge, if_pos hdpos]
    field_simp
    nlinarith [hd]
  · intro heq
    subst heq
    have hz : dist ^ 2 = 0 := by rw [hd]; ring
    have : dist = 0 := by nlinarith
    simp [leader_edge, this]

/-- Witness for `leader_edge_spec` at center (0,0), target (3,4), r = 2, dist = 5. -/
theorem leader_edge_spec_witness :
    (0 : ℚ) < 2 ∧ (0 : ℚ) ≤ 5 ∧
    ((5 : ℚ) ^ 2 = (((3 : ℚ), (4 : ℚ)).1 - ((0 : ℚ), (0 : ℚ)).1) ^ 2 +
      (((3 : ℚ), (4 : ℚ)).2 - ((0 : ℚ), (0 : ℚ)).2) ^ 2) ∧
    ((((3 : ℚ), (4 : ℚ)) : Point) ≠ ((0 : ℚ), (0 : ℚ)) →
      ((leader_edge (0, 0) (3, 4) 2 5).1 - 0) ^ 2 +
      ((leader_edge (0, 0) (3, 4) 2 5).2 - 0) ^ 2 = 2 ^ 2) :=
  ⟨by norm_num, by norm_num, by norm_num,
    (leader_edge_spec (0, 0) (3, 4) 2 5 (by norm_num) (by norm_num) (by norm_num)).1⟩

/-- C5 counterexample: for the style "default" the interactive display and
the export pipeline do NOT resolve the same visual treatment: the display
leaves the circle transparent while the export fills it white (and the
leader-color shades also differ). -/
theorem style_resolution_counterexample :
    display_style "default" ≠ export_style "default" ∧
    (display_style "default").circle_fill = none ∧
    (export_style "default").circle_fill = some (1, 1, 1) := by
  refine ⟨?_, rfl, rfl⟩
  intro h
  have := congrArg StyleResolution.circle_fill h
  simp [display_style, export_style] at this

/-- C5 amended: the two surfaces agree, for every style value, on whether a
leader is drawn; for styles default, red and outline they also agree on
circle stroke and label color, and for red and outline on circle fill; they
diverge on circle fill for "default" and "no_arrow" (transparent on display
vs white-filled on export), on circle stroke and label color for "no_arrow"
(pure red vs dark red (0.8,0,0)), and on the leader-color shade for every
style ((1,0,0) on display vs (0.8,0,0) on export). -/
theorem style_resolution_agreement :
    (∀ s : String, (display_style s).draw_leader = (export_style s).draw_leader) ∧
    ((∀ s ∈ ["default", "red", "outline"],
        (display_style s).circle_stroke = (export_style s).circle_stroke ∧
        (display_style s).text_color = (export_style s).text_color) ∧
     (∀ s ∈ ["red", "outline"],
        (display_style s).circle_fill = (export_style s).circle_fill)) ∧
    ((display_style "default").circle_fill = none ∧
      (export_style "default").circle_fill = some (1, 1, 1)) ∧
    ((display_style "no_arrow").circle_fill = none ∧
      (export_style "no_arrow").circle_fill = some (1, 1, 1)) ∧
    ((display_style "no_arrow").circle_stroke = (1, 0, 0) ∧
      (export_style "no_arrow").circle_stroke = (4/5, 0, 0) ∧
      (display_style "no_arrow").text_color = (1, 0, 0) ∧
      (export_style "no_arrow").text_color = (4/5, 0, 0)) ∧
    (∀ s : String, (display_style s).leader_color = (1, 0, 0) ∧
      (export_style s).leader_color = (4/5, 0, 0)) := by
  refine ⟨?_, ⟨?_, ?_⟩, ⟨rfl, rfl⟩, ⟨rfl, rfl⟩, ⟨rfl, rfl, rfl, rfl⟩, ?_⟩
  · intro s
    unfold display_style export_style
    split_ifs <;> rfl
  · intro s hs
    fin_cases hs <;> exact ⟨rfl, rfl⟩
  · intro s hs
    fin_cases hs <;> rfl
  · intro s
    unfold display_style export_style
    split_ifs <;> exact ⟨rfl, rfl⟩

/-- C6 counterexample: starting from the empty registry, after
place → delete → undo → undo → redo → redo the registry does NOT contain
the placed-then-deleted record: the second redo re-applies the delete, so
lookup of the record's uid yields `none` (the first redo did restore it). -/
theorem undo_redo_counterexample :
    (let s1 := (Command.place b0).redo emptyReg;
     let s2 := (Command.delete b0).redo s1;
     let s3 := (Command.delete b0).undo s2;
     let s4 := (Command.place b0).undo s3;
     let r1 := (Command.place b0).redo s4;
     let r2 := (Command.delete b0).redo r1;
     r1 b0.uid = some b0 ∧ r2 b0.uid = none) := by
  constructor <;> rfl

/-- C6 amended: each command is reverted exactly by its undo under its
creation-time preconditions (place: uid not yet registered; delete: the
record is registered under its uid; move: the captured old values are the
registered ones), and in the scenario place → delete → undo → undo returns
the registry to its pre-place (empty) state, the first redo restores the
placed-then-deleted record with its original id, and the second redo
re-applies the delete, leaving the registry empty again. -/
theorem undo_redo_spec :
    (∀ (reg : Registry) (d : BalloonData), reg d.uid = none →
      (Command.place d).undo ((Command.place d).redo reg) = reg) ∧
    (∀ (reg : Registry) (d : BalloonData), reg d.uid = some d →
      (Command.delete d).undo ((Command.delete d).redo reg) = reg) ∧
    (∀ (reg : Registry) (uid : String) (oldC newC oldT newT : Point),
      (∀ d, reg uid = some d → d.balloon_center = oldC ∧ d.target_point = oldT) →
      (Command.move uid oldC newC oldT newT).undo
        ((Command.move uid oldC newC oldT newT).redo reg) = reg) ∧
    (∀ d : BalloonData,
      (let s1 := (Command.place d).redo emptyReg;
       let s2 := (Command.delete d).redo s1;
       let s3 := (Command.delete d).undo s2;
       let s4 := (Command.place d).undo s3;
       let r1 := (Command.place d).redo s4;
       let r2 := (Command.delete d).redo r1;
       s4 = emptyReg ∧ r1 d.uid = some d ∧ r2 = emptyReg)) := by
  refine ⟨?_, ?_, ?_, ?_⟩
  · intro reg d h
    funext k
    by_cases hk : k = d.uid
    · simp [Command.redo, Command.undo, reg_add, reg_remove, hk, h.symm]
    · simp [Command.redo, Command.undo, reg_add, reg_remove, hk]
  · intro reg d h
    funext k
    by_cases hk : k = d.uid
    · simp [Command.redo, Command.undo, reg_add, reg_remove, hk, h.symm]
    · simp [Command.redo, Command.undo, reg_add, reg_remove, hk]
  · intro reg uid oldC newC oldT newT h
    funext k
    by_cases hk : k = uid
    · subst hk
      cases hreg : reg k with
      | none => simp [Command.redo, Command.undo, reg_move, hreg]
      | some d =>
        obtain ⟨hc, ht⟩ := h d hreg
        cases d
        simp_all [Command.redo, Command.undo, reg_move]
    · simp [Command.redo, Command.undo, reg_move, hk]
  · intro d
    refine ⟨?_, ?_, ?_⟩
    · funext k
      by_cases hk : k = d.uid <;>
        simp [Command.redo, Command.undo, reg_add, reg_remove, emptyReg, hk]
    · simp [Command.redo, Command.undo, reg_add, reg_remove, emptyReg]
    · funext k
      by_cases hk : k = d.uid <;>
        simp [Command.redo, Command.undo, reg_add, reg_remove, emptyReg, hk]

/-- Witness for `undo_redo_spec`, instantiated at the concrete record `b0`
and concrete registries, discharging each precondition. -/
theorem undo_redo_spec_witness :
    (emptyReg b0.uid = none ∧
      (Command.place b0).undo ((Command.place b0).redo emptyReg) = emptyReg) ∧
    ((reg_add emptyReg b0) b0.uid = some b0 ∧
      (Command.delete b0).undo
        ((Command.delete b0).redo (reg_add emptyReg b0)) = reg_add emptyReg b0) ∧
    ((∀ d, emptyReg "uid-1" = some d →
        d.balloon_center = ((0 : ℚ), (0 : ℚ)) ∧ d.target_point = ((0 : ℚ), (0 : ℚ))) ∧
      (Command.move "uid-1" (0, 0) (1, 1) (0, 0) (2, 2)).undo
        ((Command.move "uid-1" (0, 0) (1, 1) (0, 0) (2, 2)).redo emptyReg) = emptyReg) :=
  ⟨⟨rfl, undo_redo_spec.1 emptyReg b0 rfl⟩,
   ⟨rfl, undo_redo_spec.2.1 (reg_add emptyReg b0) b0 rfl⟩,
   ⟨fun d h => by simp [emptyReg] at h,
    undo_redo_spec.2.2.1 emptyReg "uid-1" (0, 0) (1, 1) (0, 0) (2, 2)
      (fun d h => by simp [emptyReg] at h)⟩⟩

/-- The scan `next_free_go` with enough fuel returns a number that is not
used, is at least the start, and skips only used numbers. -/
theorem next_free_go_correct (used : List ℕ) (fuel : ℕ) :
    ∀ n, (∃ m, n ≤ m ∧ m < n + fuel ∧ m ∉ used) →
      next_free_go used fuel n ∉ used ∧
      n ≤ next_free_go used fuel n ∧
      ∀ k, n ≤ k → k < next_free_go used fuel n → k ∈ used := by
  induction fuel with
  | zero =>
    intro n h
    obtain ⟨m, h1, h2, _⟩ := h
    exfalso
    omega
  | succ fuel ih =>
    intro n h
    by_cases hn : n ∈ used
    · have h' : ∃ m, n + 1 ≤ m ∧ m < (n + 1) + fuel ∧ m ∉ used := by
        obtain ⟨m, h1, h2, h3⟩ := h
        have hm : m ≠ n := fun e => h3 (e ▸ hn)
        exact ⟨m, by omega, by omega, h3⟩
      obtain ⟨ha, hb, hc⟩ := ih (n + 1) h'
      rw [show next_free_go used (fuel + 1) n = next_free_go used fuel (n + 1) by
        simp [next_free_go, hn]]
      refine ⟨ha, by omega, fun k hk1 hk2 => ?_⟩
      rcases Nat.eq_or_lt_of_le hk1 with he | hlt
      · rwa [he] at hn
      · exact hc k hlt hk2
    · rw [show next_free_go used (fuel + 1) n = n by simp [next_free_go, hn]]
      exact ⟨hn, le_refl n, fun k hk1 hk2 => absurd (lt_of_le_of_lt hk1 hk2) (lt_irrefl n)⟩

/-- Pigeonhole: among `1 .. used.length + 1` some number is unused. -/
theorem exists_unused (used : List ℕ) :
    ∃ m, 1 ≤ m ∧ m < 1 + (used.length + 1) ∧ m ∉ used := by
  by_contra h
  push_neg at h
  have hsub : Finset.Icc 1 (used.length + 1) ⊆ used.toFinset := by
    intro m hm
    rw [Finset.mem_Icc] at hm
    exact List.mem_toFinset.mpr (h m hm.1 (by omega))
  have h1 : (Finset.Icc 1 (used.length + 1)).card ≤ used.toFinset.card :=
    Finset.card_le_card hsub
  have h2 : (Finset.Icc 1 (used.length + 1)).card = used.length + 1 := by
    rw [Nat.card_Icc]
    omega
  have h3 : used.toFinset.card ≤ used.length := used.toFinset_card_le
  omega

/-- C7: `_next_free_number` returns the lowest positive integer not used by
any active record (it is unused, positive, and every smaller positive
integer is used); with active numbers {1,2,4} it returns 3, and after
placing that 3 and deleting 2 it returns 2 again. -/
theorem next_free_number_spec (used : List ℕ) :
    next_free_number used ∉ used ∧
    1 ≤ next_free_number used ∧
    (∀ k, 1 ≤ k → k < next_free_number used → k ∈ used) ∧
    next_free_number [1, 2, 4] = 3 ∧
    next_free_number ((3 :: [1, 2, 4]).erase 2) = 2 := by
  obtain ⟨h1, h2, h3⟩ :=
    next_free_go_correct used (used.length + 1) 1 (exists_unused used)
  exact ⟨h1, h2, h3, by decide, by decide⟩

/-- C8: renumber-all assigns numbers 1, 2, … in order of the resulting
list, the resulting list is ordered by (page ascending, center-Y
descending, center-X ascending), and on the records at document
Y = 100 (x=10, number 7), Y = 50 (x=5, number 2), Y = 50 (x=20, number 9)
of page 0 it assigns 1 to Y=100, 2 to Y=50,x=5 and 3 to Y=50,x=20. -/
theorem renumber_balloons_spec (bs : List BalloonData) :
    (renumber_balloons bs).map BalloonData.number = List.range' 1 bs.length ∧
    (renumber_balloons bs).Pairwise balloon_le ∧
    (renumber_balloons [bY50x5, bY50x20, bY100]).map
        (fun b => (b.uid, b.number)) = [("uA", 1), ("uB", 2), ("uC", 3)] := by
  refine ⟨?_, ?_, by decide⟩
  · unfold renumber_balloons
    rw [List.map_map]
    have hcomp : (BalloonData.number ∘ fun p : ℕ × BalloonData =>
        { p.2 with number := p.1 + 1 }) = fun p : ℕ × BalloonData => p.1 + 1 := rfl
    rw [hcomp]
    have hmm : ((List.insertionSort balloon_le bs).enum.map Prod.fst).map
          (fun n => n + 1)
        = (List.insertionSort balloon_le bs).enum.map (fun p => p.1 + 1) := by
      rw [List.map_map]
      rfl
    rw [← hmm, List.enum_map_fst, List.length_insertionSort,
      List.range'_eq_map_range]
    exact List.map_congr_left (fun n _ => Nat.add_comm n 1)
  · have hs : (List.insertionSort balloon_le bs).Pairwise balloon_le :=
      List.sorted_insertionSort balloon_le bs
    have h1 : ((List.insertionSort balloon_le bs).enum.map Prod.snd).Pairwise
        balloon_le := by
      rw [List.enum_map_snd]
      exact hs
    have h2 := List.pairwise_map.mp h1
    exact List.pairwise_map.mpr (h2.imp (fun h => h))

/-- C9: serialization round-trips losslessly for every record (including
the scenario record with style "no_arrow", fontSizeOverride 12 and
diameter 36), and deserializing a record whose optional style or
font_size_override key is absent yields "default" and 0 respectively. -/
theorem to_dict_from_dict_spec :
    (∀ b : BalloonData, from_dict (to_dict b) = b) ∧
    from_dict (to_dict bNoArrow) = bNoArrow ∧
    (∀ d : BalloonRecord, d.style = none → (from_dict d).style = "default") ∧
    (∀ d : BalloonRecord, d.font_size_override = none →
      (from_dict d).font_size_override = 0) := by
  refine ⟨fun b => rfl, rfl, fun d h => ?_, fun d h => ?_⟩
  · simp [from_dict, h]
  · simp [from_dict, h]

/-- Witness for `to_dict_from_dict_spec`: a record with the optional style
and font_size_override keys absent deserializes with the defaults. -/
theorem to_dict_from_dict_spec_witness :
    (let d : BalloonRecord :=
      { number := 1, page := 0, target_point := (1, 2),
        balloon_center := (3, 4), description := none, diameter := none,
        style := none, font_size_override := none, uid := "u" };
     d.style = none ∧ d.font_size_override = none ∧
     (from_dict d).style = "default" ∧ (from_dict d).font_size_override = 0) :=
  ⟨rfl, rfl,
   to_dict_from_dict_spec.2.2.1 _ rfl,
   to_dict_from_dict_spec.2.2.2 _ rfl⟩

/-- C10: when the source and destination paths resolve to the same file,
`export_pdf` fails with the explicit user-input error before opening or
saving anything, so no output is produced and the source file is
untouched (no file action is performed). -/
theorem export_pdf_same_file_guard (resolve : String → String)
    (src_path dst_path : String) (h : resolve src_path = resolve dst_path) :
    export_pdf_actions resolve src_path dst_path =
      .error "Cannot overwrite the original PDF. Choose a different output path." ∧
    ∀ acts, export_pdf_actions resolve src_path dst_path ≠ .ok acts := by
  constructor
  · simp [export_pdf_actions, h]
  · intro acts
    simp [export_pdf_actions, h]

/-- Witness for `export_pdf_same_file_guard` with identical literal paths. -/
theorem export_pdf_same_file_guard_witness :
    (id "a.pdf" : String) = id "a.pdf" ∧
    export_pdf_actions id "a.pdf" "a.pdf" =
      .error "Cannot overwrite the original PDF. Choose a different output path." :=
  ⟨rfl, (export_pdf_same_file_guard id "a.pdf" "a.pdf" rfl).1⟩

end PdfBallooner
